import Mathlib

/-!
Verification of the onboarding progression and structured-data-collection
engine of the hr-traine repository.

The Python sources are shallowly embedded as executable Lean definitions:
  - `app/database/models.py`    → step / submission records,
  - `app/bot/handlers/labs.py`  → `get_next_step`, `evaluate_answer`,
                                  `process_step_action`,
  - `app/core/search_map.py`    → `validate_structure`, `validate_content`,
  - `app/core/llm_client.py`    → `evaluate_submission`,
  - `app/bot/reports/simple_report_generator.py` → `extract_score`,
  - `app/bot/handlers/structured_input.py` → the text_parse path and the
    sequential_dialogue finite-state dialogue machine.

External collaborators (the Telegram transport, the LLM provider, pandas
file loading) enter as explicit parameters describing their outcome, so
every function is a pure, executable Lean definition.  Timestamps are
modelled as rational numbers measured in minutes, so that
`created_at - started_at` is directly the completion time in minutes
(`get_completion_time_minutes` divides seconds by 60 in the source).
-/

namespace HrTraine

/-- `StepType` from `app/database/models.py`. -/
inductive StepType where
  | content
  | fileUpload
  | textInput
  | offline
  | question
  | selfReport
  | evaluation
  | confirmation
deriving DecidableEq, Repr

/-- `OnboardingStep` row (`app/database/models.py`).  `order` is unique in
the database schema; theorems carry that as a pairwise hypothesis. -/
structure OnboardingStep where
  id : Int
  title : String
  description : String
  order : Int
  step_type : StepType
  estimated_duration : Int
  content_url : Option String
  evaluation_prompt : Option String
  evaluation_criteria : Option String
  passing_score : ℚ
deriving DecidableEq, Repr

/-- `OnboardingSubmission` row (`app/database/models.py`).  Note the model
has exactly these data columns: there is no `structured_data`,
`llm_evaluation` or `feedback` column. -/
structure Submission where
  user_id : Int
  step_id : Int
  file_path : Option String
  text_answer : Option String
  auto_check_result : Option String
  status : String
  started_at : Option ℚ
  created_at : ℚ
  time_warning : Option String
  evaluation_score : Option ℚ
  evaluation_notes : Option String
deriving DecidableEq, Repr

/-- `OnboardingSubmission.get_completion_time_minutes`: `0` when
`started_at` is missing, else the elapsed time (timestamps are already in
minutes in this model). -/
def Submission.get_completion_time_minutes (s : Submission) : ℚ :=
  match s.started_at with
  | none => 0
  | some t => s.created_at - t

/-- `User` row: internal primary key `id` and the Telegram account id. -/
structure UserRec where
  id : Int
  telegram_id : Int
deriving DecidableEq, Repr

/-- The statuses `get_next_step` treats as "attempted"
(`labs.py`, line 25). -/
def attemptedStatuses : List String := ["checked", "approved", "pending"]

/-- The step ids selected by the first query of `get_next_step`
(`labs.py`, lines 21-29): submissions of this user whose status is in
`attemptedStatuses`. -/
def completed_step_ids (user_id : Int) (subs : List Submission) : List Int :=
  (subs.filter (fun s => s.user_id == user_id &&
      attemptedStatuses.contains s.status)).map (fun s => s.step_id)

/-- `get_next_step` (`labs.py`, lines 17-37).  `catalog` stands for the
catalog as returned by `SELECT ... ORDER BY order`, i.e. sorted
ascending by `order`. -/
def get_next_step (user_id : Int) (subs : List Submission)
    (catalog : List OnboardingStep) : Option OnboardingStep :=
  let completed := completed_step_ids user_id subs
  catalog.find? (fun st => !decide (st.id ∈ completed))

/-- A step counts as attempted for a user when its id is in the selected
id list. -/
def attempted (user_id : Int) (subs : List Submission) (step_id : Int) : Prop :=
  step_id ∈ completed_step_ids user_id subs

instance (u : Int) (subs : List Submission) (i : Int) :
    Decidable (attempted u subs i) := by
  unfold attempted; infer_instance

/-- `find?` on a list sorted strictly by `key` returns exactly the
element that satisfies the predicate while every key-smaller element
fails it; it returns `none` exactly when every element fails. -/
theorem find_first_by_key {α : Type} (key : α → Int) (p : α → Bool) :
    ∀ (l : List α), l.Pairwise (fun a b => key a < key b) →
      (∀ s, l.find? p = some s ↔
        (s ∈ l ∧ p s = true ∧ ∀ t ∈ l, key t < key s → p t = false)) ∧
      (l.find? p = none ↔ ∀ t ∈ l, p t = false) := by
  intro l
  induction l with
  | nil =>
    intro _
    constructor
    · intro s; simp
    · simp
  | cons a l ih =>
    intro hpw
    rw [List.pairwise_cons] at hpw
    obtain ⟨ha, hl⟩ := hpw
    obtain ⟨ihsome, ihnone⟩ := ih hl
    by_cases hp : p a = true
    · constructor
      · intro s
        rw [List.find?_cons_of_pos _ hp]
        constructor
        · rintro h
          cases h
          refine ⟨List.mem_cons_self a l, hp, ?_⟩
          intro t ht hlt
          rcases List.mem_cons.mp ht with rfl | htl
          · exact absurd hlt (lt_irrefl _)
          · exact absurd hlt (not_lt_of_gt (ha t htl))
        · rintro ⟨hmem, hps, hfirst⟩
          rcases List.mem_cons.mp hmem with rfl | hsl
          · rfl
          · have := hfirst a (List.mem_cons_self a l) (ha s hsl)
            rw [hp] at this
            exact absurd this (by simp)
      · rw [List.find?_cons_of_pos _ hp]
        constructor
        · intro h; exact absurd h (by simp)
        · intro h
          have := h a (List.mem_cons_self a l)
          rw [hp] at this
          exact absurd this (by simp)
    · have hpf : p a = false := by
        cases h : p a
        · rfl
        · exact absurd h hp
      constructor
      · intro s
        rw [List.find?_cons_of_neg _ hp]
        rw [ihsome s]
        constructor
        · rintro ⟨hmem, hps, hfirst⟩
          refine ⟨List.mem_cons_of_mem a hmem, hps, ?_⟩
          intro t ht _
          rcases List.mem_cons.mp ht with rfl | htl
          · exact hpf
          · exact hfirst t htl (by assumption)
        · rintro ⟨hmem, hps, hfirst⟩
          rcases List.mem_cons.mp hmem with rfl | hsl
          · rw [hpf] at hps; exact absurd hps (by simp)
          · refine ⟨hsl, hps, ?_⟩
            intro t ht hlt
            exact hfirst t (List.mem_cons_of_mem a ht) hlt
      · rw [List.find?_cons_of_neg _ hp]
        rw [ihnone]
        constructor
        · intro h t ht
          rcases List.mem_cons.mp ht with rfl | htl
          · exact hpf
          · exact h t htl
        · intro h t ht
          exact h t (List.mem_cons_of_mem a ht)

/-- The find? predicate of `get_next_step` holds exactly for
non-attempted steps. -/
theorem next_step_pred_iff (u : Int) (subs : List Submission)
    (st : OnboardingStep) :
    ((!decide (st.id ∈ completed_step_ids u subs)) = true ↔
      ¬ attempted u subs st.id) := by
  unfold attempted
  simp

/-- The find? predicate of `get_next_step` is false exactly for attempted
steps. -/
theorem next_step_pred_false_iff (u : Int) (subs : List Submission)
    (st : OnboardingStep) :
    ((!decide (st.id ∈ completed_step_ids u subs)) = false ↔
      attempted u subs st.id) := by
  unfold attempted
  simp

/-- The LLM feedback pair returned by `evaluate_answer`. -/
structure EvalFeedback where
  score : Option ℚ
  comment : String
deriving DecidableEq, Repr

/-- The five characters matched by the regex `[1-5]` of
`evaluate_answer`. -/
def digitChars15 : List Char := ['1', '2', '3', '4', '5']

/-- `re.search(r'([1-5])', feedback)`: the first character of the string
belonging to the class `[1-5]`. -/
def firstDigit15 (s : String) : Option Char :=
  s.toList.find? (fun c => digitChars15.contains c)

/-- `float(match.group(1))`: the numeric value of the matched digit. -/
def digitVal (c : Char) : ℚ :=
  if c = '1' then 1 else if c = '2' then 2 else if c = '3' then 3
  else if c = '4' then 4 else if c = '5' then 5 else 0

/-- `evaluate_answer` (`labs.py`, lines 78-109).  The LLM call outcome is
the explicit `llmResp` parameter: `.ok text` for a reply, `.error e` for a
raised exception (caught and replaced by the fallback text).  A `none` or
empty `previous_answer` is Python-falsy and short-circuits. -/
def evaluate_answer (previous_answer : Option String)
    (step_description : String) (llmResp : Except String String) :
    EvalFeedback :=
  if previous_answer = none ∨ previous_answer = some "" then
    { score := none, comment := "Нет ответа для оценки" }
  else
    let feedback :=
      match llmResp with
      | .ok r => r
      | .error e => "LLM недоступен: " ++ e
    let score : Option ℚ :=
      if feedback = "" then none
      else (firstDigit15 feedback).map digitVal
    { score := score, comment := feedback }

/-- `SimpleOnboardingReportGenerator._extract_score`
(`simple_report_generator.py`, lines 134-149).  `extracted` is the number
matched by either of the two regexes over the LLM feedback (`Оценка: X`
or a bare number); both regex branches clamp with
`max(1.0, min(10.0, score))`, and no match yields the default `5.0`. -/
def extract_score (extracted : Option ℚ) : ℚ :=
  match extracted with
  | some score => max 1 (min 10 score)
  | none => 5

/-- Python falsiness of an optional string: `None` or `""`. -/
def pyFalsy (s : Option String) : Bool :=
  match s with
  | none => true
  | some t => t = ""

/-- Outcome of `json.loads` on the cleaned LLM evaluation response:
either a decode failure on the raw text, or an object whose optional
`score` entry carries a number. -/
inductive LLMJson where
  | decodeError (raw : String)
  | obj (score : Option ℚ) (feedback : Option String)
deriving DecidableEq, Repr

/-- Result dictionary of `LLMClient.evaluate_submission`. -/
structure EvalResult where
  score : ℚ
  feedback : String
deriving DecidableEq, Repr

/-- `LLMClient.evaluate_submission` (`llm_client.py`, lines 635-717):
without an evaluation prompt or criteria the default `5.0` is returned; a
JSON decode failure yields `3.0`; otherwise the parsed object's `score`
value is returned as is (a missing `score` key defaults to `3.0`). -/
def evaluate_submission (step : OnboardingStep) (resp : LLMJson) :
    EvalResult :=
  if pyFalsy step.evaluation_prompt || pyFalsy step.evaluation_criteria then
    { score := 5, feedback := "Задание принято. Оценка не требуется." }
  else
    match resp with
    | .decodeError raw =>
        { score := 3, feedback := "Оценка обработана. " ++ raw.take 200 }
    | .obj sc fb =>
        { score := sc.getD 3, feedback := fb.getD "Evaluation completed." }

/-- A pandas data frame: named columns and rows of cells, a `none` cell
standing for NaN. -/
structure DataFrame where
  columns : List String
  rows : List (List (Option String))
deriving DecidableEq, Repr

/-- `SearchMapValidator` state: the loaded frame (or `None`) and the
accumulated `errors` list. -/
structure ValidatorState where
  df : Option DataFrame
  errors : List String
deriving DecidableEq, Repr

/-- `SearchMapValidator.REQUIRED_COLUMNS` (`search_map.py`, lines 6-8). -/
def REQUIRED_COLUMNS : List String :=
  ["Company", "Position", "Source", "Contact", "Status"]

/-- The required columns absent from the frame. -/
def missing_cols (df : DataFrame) : List String :=
  REQUIRED_COLUMNS.filter (fun col => !df.columns.contains col)

/-- `SearchMapValidator.validate_structure` (`search_map.py`, lines
29-37): returns the boolean verdict together with the validator state
(whose `errors` list receives the missing-columns message). -/
def validate_structure (v : ValidatorState) : Bool × ValidatorState :=
  match v.df with
  | none => (false, v)
  | some df =>
    let missing := missing_cols df
    if missing.isEmpty then (true, v)
    else
      (false, { v with errors := v.errors ++
        ["Missing columns: " ++ String.intercalate ", " missing] })

/-- The report dictionary built by `validate_content`. -/
structure ContentReport where
  total_rows : ℕ
  empty_contacts : ℕ
  valid : Bool
  errors : List String
deriving DecidableEq, Repr

/-- `self.df[col].isna().sum()`: the number of NaN cells in the named
column. -/
def isnaCount (df : DataFrame) (col : String) : ℕ :=
  match df.columns.findIdx? (fun c => c == col) with
  | none => 0
  | some idx => df.rows.countP (fun r => (r.getD idx (some "")).isNone)

/-- `SearchMapValidator.validate_content` (`search_map.py`, lines 39-64).
With no frame the code returns only `valid=False` and the accumulated
errors (the counters are absent; modelled as `0`). -/
def validate_content (v : ValidatorState) : ContentReport :=
  match v.df with
  | none =>
    { total_rows := 0, empty_contacts := 0, valid := false, errors := v.errors }
  | some df =>
    let empty :=
      if df.columns.contains "Contact" then isnaCount df "Contact" else 0
    if (empty : ℚ) > (df.rows.length : ℚ) * (1/2) then
      { total_rows := df.rows.length, empty_contacts := empty,
        valid := false, errors := ["Too many empty contacts (>50%)"] }
    else
      { total_rows := df.rows.length, empty_contacts := empty,
        valid := true, errors := [] }

/-- `SearchMapValidator.get_summary` (`search_map.py`, lines 110-113). -/
def get_summary (v : ValidatorState) : String :=
  if v.errors.isEmpty then "File loaded successfully."
  else String.intercalate "\n" v.errors

/-- The dictionary returned by `llm_client.validate_search_map`, as read
by `process_step_action`: `valid` is the value of
`llm_report.get("valid", True)`. -/
structure LlmReport where
  valid : Bool
  issues : List String
  suggestions : List String
deriving DecidableEq, Repr

/-- The FSM data armed by `show_step` and read back by
`process_step_action`. -/
structure SessionData where
  current_step_id : Option Int
  step_type : StepType
  last_text_answer : Option String
  step_started_at : Option ℚ
  estimated_duration : Int
deriving DecidableEq, Repr

/-- An attached Telegram document. -/
structure TgDocument where
  file_name : String
deriving DecidableEq, Repr

/-- The incoming Telegram message, reduced to the fields the handler
reads. -/
structure TgMessage where
  text : Option String
  document : Option TgDocument
deriving DecidableEq, Repr

/-- The chat replies `process_step_action` can send, with the data each
one interpolates. -/
inductive BotMsg where
  | sessionExpired
  | tooFast (minutes : ℚ) (norm : Int)
  | tooSlow (minutes : ℚ) (norm : Int)
  | pressDone
  | markedDone
  | needTextAnswer
  | answerSaved
  | evaluationSkipped
  | evaluationResult (comment : String)
  | uploadExcelFile
  | needExcelExtension
  | fileLoadError (summary : String)
  | validationFeedback
  | fileAccepted
deriving DecidableEq, Repr

/-- The observable outcome of one `process_step_action` turn: the
submission committed to the store (if any), the FSM data after the
handler's own updates, whether the file validator was ever constructed,
and the replies sent. -/
structure StepOutcome where
  submission : Option Submission
  data : SessionData
  validator_invoked : Bool
  messages : List BotMsg
deriving DecidableEq, Repr

/-- Python `str.lower` restricted to the Latin and Cyrillic letters the
handler compares. -/
def pyLowerChar (c : Char) : Char :=
  if 'A' ≤ c ∧ c ≤ 'Z' then Char.ofNat (c.toNat + 32)
  else if 'А' ≤ c ∧ c ≤ 'Я' then Char.ofNat (c.toNat + 32)
  else if c = 'Ё' then 'ё'
  else c

/-- Python `str.lower` on the handler's inputs (structural
character-list map). -/
def pyLower (s : String) : String := ⟨s.toList.map pyLowerChar⟩

/-- Python `str.endswith(post)` (structural: reversed prefix test). -/
def strEndsWith (s post : String) : Bool :=
  List.isPrefixOf post.toList.reverse s.toList.reverse

/-- The skip test of the Evaluation branch:
`message.text and message.text.lower() in ["/skip", "пропустить"]`. -/
def isSkipText (t : Option String) : Bool :=
  match t with
  | none => false
  | some s =>
    if s = "" then false
    else pyLower s == "/skip" || pyLower s == "пропустить"

/-- `f"uploads/{user.id}_{step_id}_{file_name}"`. -/
def uploadDestination (userId stepId : Int) (fileName : String) : String :=
  "uploads/" ++ toString userId ++ "_" ++ toString stepId ++ "_" ++ fileName

/-- `f"Basic check: {report}\nLLM check: {llm_report}"`. -/
def autoCheckSummary (report : ContentReport) (llm : LlmReport) : String :=
  "Basic check: " ++ reprStr report ++ "\nLLM check: " ++ reprStr llm

/-- The submission as first constructed by `process_step_action`
(`labs.py`, lines 199-205): status `"checked"`, `started_at` from the
session, `created_at = datetime.now()`. -/
def initialSub (user : UserRec) (step_id : Int) (started : Option ℚ)
    (now : ℚ) : Submission :=
  { user_id := user.id, step_id := step_id, file_path := none,
    text_answer := none, auto_check_result := none, status := "checked",
    started_at := started, created_at := now,
    time_warning := none, evaluation_score := none,
    evaluation_notes := none }

/-- The timing-anomaly stage of `process_step_action` (`labs.py`, lines
207-221): when `started_at` is set and the estimate is positive, compare
the completion time against `0.3×` and `3×` the estimate. -/
def applyTiming (sub0 : Submission) (est : Int) :
    Submission × List BotMsg :=
  if sub0.started_at.isSome && decide (0 < est) then
    let ct := sub0.get_completion_time_minutes
    if ct < (est : ℚ) * (3/10) then
      ({ sub0 with time_warning := some "too_fast" }, [.tooFast ct est])
    else if ct > (est : ℚ) * 3 then
      ({ sub0 with time_warning := some "too_slow" }, [.tooSlow ct est])
    else (sub0, [])
  else (sub0, [])

/-- `process_step_action` (`labs.py`, lines 181-308), as a pure function
of one turn.  External outcomes enter as parameters: `llmResp` is the
outcome of the `generate_response` call inside `evaluate_answer`;
`loadOk`/`validator` describe `SearchMapValidator(destination)` after
`load()`; `llm_report` is the awaited `validate_with_llm()` dictionary.
`now` is the turn's `datetime.now()` (minutes).  The returned
`submission` is what `session.add`/`commit` persists; re-prompt paths
(`return` before `session.add`) yield `none` and leave `data`
unchanged. -/
def process_step_action (data : SessionData) (msg : TgMessage)
    (user : UserRec) (step : OnboardingStep) (now : ℚ)
    (llmResp : Except String String) (loadOk : Bool)
    (validator : ValidatorState) (llm_report : LlmReport) : StepOutcome :=
  match data.current_step_id with
  | none =>
    { submission := none, data := data, validator_invoked := false,
      messages := [.sessionExpired] }
  | some step_id =>
    let timed :=
      applyTiming (initialSub user step_id data.step_started_at now)
        data.estimated_duration
    let sub1 := timed.1
    let warns := timed.2
    match data.step_type with
    | .content | .offline | .confirmation =>
      if msg.text ≠ some "Готово ✅" then
        { submission := none, data := data, validator_invoked := false,
          messages := warns ++ [.pressDone] }
      else
        { submission := some { sub1 with text_answer := some "Completed" },
          data := data, validator_invoked := false,
          messages := warns ++ [.markedDone] }
    | .textInput | .question | .selfReport =>
      match msg.text with
      | none =>
        { submission := none, data := data, validator_invoked := false,
          messages := warns ++ [.needTextAnswer] }
      | some t =>
        if t = "" then
          { submission := none, data := data, validator_invoked := false,
            messages := warns ++ [.needTextAnswer] }
        else
          { submission := some { sub1 with text_answer := some t },
            data := { data with last_text_answer := some t },
            validator_invoked := false,
            messages := warns ++ [.answerSaved] }
    | .evaluation =>
      if isSkipText msg.text then
        { submission := some { sub1 with
            status := "pending",
            text_answer := data.last_text_answer,
            evaluation_notes := some "Оценка пропущена пользователем" },
          data := data, validator_invoked := false,
          messages := warns ++ [.evaluationSkipped] }
      else
        let feedback :=
          evaluate_answer data.last_text_answer step.description llmResp
        { submission := some { sub1 with
            text_answer := data.last_text_answer,
            evaluation_score := feedback.score,
            evaluation_notes := some feedback.comment,
            auto_check_result := some feedback.comment },
          data := data, validator_invoked := false,
          messages := warns ++ [.evaluationResult feedback.comment] }
    | .fileUpload =>
      match msg.document with
      | none =>
        { submission := none, data := data, validator_invoked := false,
          messages := warns ++ [.uploadExcelFile] }
      | some doc =>
        if !(strEndsWith doc.file_name ".xlsx" ||
            strEndsWith doc.file_name ".xls")
        then
          { submission := none, data := data, validator_invoked := false,
            messages := warns ++ [.needExcelExtension] }
        else if !loadOk then
          { submission := none, data := data, validator_invoked := true,
            messages := warns ++ [.fileLoadError (get_summary validator)] }
        else
          let report := validate_content validator
          let invalid := !report.valid || !llm_report.valid
          { submission := some { sub1 with
              file_path := some (uploadDestination user.id step_id
                doc.file_name),
              auto_check_result := some (autoCheckSummary report llm_report),
              status := if invalid then "pending" else sub1.status },
            data := data, validator_invoked := true,
            messages := warns ++
              [if invalid then .validationFeedback else .fileAccepted] }

/-- A Python attribute value, for rows modelled as attribute
dictionaries. -/
inductive PyVal where
  | int (i : Int)
  | str (s : String)
  | num (q : ℚ)
deriving DecidableEq, Repr

/-- Assignment into a string-keyed association list (Python dict /
attribute assignment: replace an existing key, else append). -/
def assocSet {β : Type} (m : List (String × β)) (k : String) (v : β) :
    List (String × β) :=
  if m.any (fun kv => kv.1 == k) then
    m.map (fun kv => if kv.1 == k then (k, v) else kv)
  else m ++ [(k, v)]

/-- The attributes of the `OnboardingSubmission` class
(`app/database/models.py`, lines 56-84): its mapped columns and
relationships.  There is no `structured_data`, `llm_evaluation` or
`feedback` attribute. -/
def submissionModelAttrs : List String :=
  ["id", "user_id", "step_id", "file_path", "text_answer",
   "auto_check_result", "expert_score", "expert_comment", "status",
   "started_at", "created_at", "time_warning", "evaluation_score",
   "evaluation_notes", "user", "step",
   "get_completion_time_minutes"]

/-- SQLAlchemy's declarative constructor (`_declarative_constructor`):
each keyword argument must be an attribute of the mapped class, else a
`TypeError` is raised; on success the keywords become the row's
attributes. -/
def declarativeInit (kwargs : List (String × PyVal)) :
    Except String (List (String × PyVal)) :=
  if kwargs.all (fun kv => submissionModelAttrs.contains kv.1) then .ok kwargs
  else .error "invalid keyword argument"

/-- The keyword arguments of the `OnboardingSubmission(...)` call in
`_process_text_parse` (`structured_input.py`, lines 142-148): note
`user_id` is `message.from_user.id`, the Telegram account id, and the
call passes a `structured_data` keyword. -/
def textParseKwargs (telegramId stepId : Int)
    (userText structuredJson : String) : List (String × PyVal) :=
  [("user_id", .int telegramId),
   ("step_id", .int stepId),
   ("text_answer", .str userText),
   ("structured_data", .str structuredJson),
   ("status", .str "pending")]

/-- Observable outcome of one `_process_text_parse` turn: the rows left
committed in the store, whether `state.clear()` ran, and the error reply
of the `except` branch when the `try` block raised. -/
structure TextParseOutcome where
  persisted : List (List (String × PyVal))
  state_cleared : Bool
  error_message : Option String
deriving DecidableEq, Repr

/-- `_process_text_parse` (`structured_input.py`, lines 122-174).
`structuredJson` is `json.dumps` of the parser's output (the parser never
raises: malformed model output falls back to a `raw_text`/`parse_error`
object), and `evalResp` is the decoded LLM evaluation response.  The
whole `try` body runs under one `except Exception` handler that replies
with an error and returns. -/
def process_text_parse (step : OnboardingStep) (telegramId : Int)
    (userText : String) (structuredJson : String) (evalResp : LLMJson) :
    TextParseOutcome :=
  let kwargs := textParseKwargs telegramId step.id userText structuredJson
  match declarativeInit kwargs with
  | .error _ =>
    { persisted := [], state_cleared := false,
      error_message := some "Ошибка при обработке" }
  | .ok row =>
    let evaluation := evaluate_submission step evalResp
    let score := evaluation.score
    let finalStatus :=
      if step.passing_score ≤ score then "approved" else "needs_improvement"
    let row1 := assocSet row "evaluation_score" (.num score)
    let row2 := assocSet row1 "feedback" (.str evaluation.feedback)
    let row3 := assocSet row2 "status" (.str finalStatus)
    { persisted := [row3], state_cleared := true, error_message := none }

/-- One `collection_flow` section of a `sequential_dialogue`
configuration; a missing `follow_up` key is the empty list. -/
structure DialogueSection where
  name : String
  prompt : String
  follow_up : List String
deriving DecidableEq, Repr

/-- One named item of a section: the dict
`{'название': item, followUpField: answer, ...}`. -/
structure DialogueItem where
  item_name : String
  answers : List (String × String)
deriving DecidableEq, Repr

/-- `current_items[i][field] = text`. -/
def setItemField (it : DialogueItem) (field ans : String) : DialogueItem :=
  { it with answers := assocSet it.answers field ans }

/-- `collected_sections[name]`: the plain token list for a section with
no follow-ups, or the structured item list. -/
inductive SectionValue where
  | plain (items : List String)
  | detailed (items : List DialogueItem)
deriving DecidableEq, Repr

/-- `len(items)` in the final summary. -/
def sectionValueLen : SectionValue → ℕ
  | .plain l => l.length
  | .detailed l => l.length

/-- The aiogram FSM states plus the post-`state.clear()` situation. -/
inductive DialogueFsm where
  | collecting_data
  | awaiting_follow_up
  | cleared
deriving DecidableEq, Repr

/-- The session data of the sequential_dialogue engine. -/
structure DialogueState where
  sections : List DialogueSection
  current_section_index : ℕ
  current_items : List DialogueItem
  collected_sections : List (String × SectionValue)
  current_item_index : ℕ
  current_follow_up_index : ℕ
  fsm : DialogueFsm
deriving DecidableEq, Repr

/-- The messages the sequential_dialogue engine sends: `followUpPrompt n
f` is the reply `f"Для '{n}' - {f}?"`. -/
inductive DialogueMsg where
  | followUpPrompt (item_name : String) (follow_up : String)
  | sectionPrompt (prompt : String)
  | summary (counts : List (String × ℕ))
deriving DecidableEq, Repr

/-- `message.text.split(',')` as a structural recursion over the
character list. -/
def splitCommaAux : List Char → List Char → List (List Char)
  | [], acc => [acc.reverse]
  | c :: cs, acc =>
    if c = ',' then acc.reverse :: splitCommaAux cs []
    else splitCommaAux cs (c :: acc)

/-- The whitespace characters `str.strip()` removes. -/
def isSpaceChar (c : Char) : Bool :=
  c = ' ' || c = '\t' || c = '\n' || c = '\r' ||
    c = Char.ofNat 11 || c = Char.ofNat 12

/-- Python `str.strip()`. -/
def pyStrip (l : List Char) : List Char :=
  ((l.dropWhile isSpaceChar).reverse.dropWhile isSpaceChar).reverse

/-- `item.strip() for item in message.text.split(',') if item.strip()`. -/
def tokenizeItems (s : String) : List String :=
  (((splitCommaAux s.toList []).map
    (fun t => String.mk (pyStrip t))).filter (fun t => t ≠ ""))

/-- `_handle_sequential_dialogue` (`structured_input.py`, lines 82-102):
arms the state at the first section.  With no sections the engine only
reports a configuration warning (modelled as `none`). -/
def handle_sequential_dialogue (sections : List DialogueSection) :
    Option (DialogueState × List DialogueMsg) :=
  match sections.head? with
  | none => none
  | some first =>
    some ({ sections := sections, current_section_index := 0,
            current_items := [], collected_sections := [],
            current_item_index := 0, current_follow_up_index := 0,
            fsm := .collecting_data },
          [.sectionPrompt first.prompt])

/-- `_move_to_next_section` (`structured_input.py`, lines 303-325). -/
def move_to_next_section (st : DialogueState) (next_index : ℕ)
    (collected : List (String × SectionValue)) :
    DialogueState × List DialogueMsg :=
  match st.sections.get? next_index with
  | some nextSec =>
    ({ st with
        current_section_index := next_index
        current_items := []
        collected_sections := collected
        fsm := .collecting_data },
     [.sectionPrompt nextSec.prompt])
  | none =>
    ({ st with collected_sections := collected, fsm := .cleared },
     [.summary (collected.map (fun nv => (nv.1, sectionValueLen nv.2)))])

/-- `_process_sequential_dialogue` (`structured_input.py`, lines
220-253): handles a reply in the `collecting_data` state.  When
`current_items` is non-empty the Python body falls through with no
effect; an out-of-range section index would raise in Python and is
modelled as no effect. -/
def process_sequential_dialogue (st : DialogueState) (text : String) :
    DialogueState × List DialogueMsg :=
  match st.sections.get? st.current_section_index with
  | none => (st, [])
  | some sec =>
    if st.current_items.isEmpty then
      let items_list := tokenizeItems text
      let current_items := items_list.map (fun n => DialogueItem.mk n [])
      if !current_items.isEmpty && !sec.follow_up.isEmpty then
        ({ st with
            current_items := current_items
            current_item_index := 0
            current_follow_up_index := 0
            fsm := .awaiting_follow_up },
         [.followUpPrompt (current_items.getD 0 ⟨"", []⟩).item_name
            (sec.follow_up.getD 0 "")])
      else
        move_to_next_section st (st.current_section_index + 1)
          (assocSet st.collected_sections sec.name (.plain items_list))
    else (st, [])

/-- `process_follow_up` (`structured_input.py`, lines 256-300): handles a
reply in the `awaiting_follow_up` state.  In-place mutation of the item
dict persists across turns (the default aiogram memory storage shares
the nested objects), modelled by the functional update. -/
def process_follow_up (st : DialogueState) (text : String) :
    DialogueState × List DialogueMsg :=
  match st.sections.get? st.current_section_index with
  | none => (st, [])
  | some sec =>
    let fps := sec.follow_up
    match fps.get? st.current_follow_up_index,
        st.current_items.get? st.current_item_index with
    | some field, some item =>
      let item1 := setItemField item field text
      let items1 := st.current_items.set st.current_item_index item1
      let nfi := st.current_follow_up_index + 1
      if nfi < fps.length then
        ({ st with current_items := items1, current_follow_up_index := nfi },
         [.followUpPrompt item1.item_name (fps.getD nfi "")])
      else
        let nii := st.current_item_index + 1
        if nii < items1.length then
          ({ st with
              current_items := items1
              current_item_index := nii
              current_follow_up_index := 0 },
           [.followUpPrompt (items1.getD nii ⟨"", []⟩).item_name
              (fps.getD 0 "")])
        else
          move_to_next_section { st with current_items := items1 }
            (st.current_section_index + 1)
            (assocSet st.collected_sections sec.name (.detailed items1))
    | _, _ => (st, [])

/-- One turn of the dialogue engine: dispatch on the armed FSM state, as
the two aiogram routers do. -/
def dialogueTurn (st : DialogueState) (text : String) :
    DialogueState × List DialogueMsg :=
  match st.fsm with
  | .collecting_data => process_sequential_dialogue st text
  | .awaiting_follow_up => process_follow_up st text
  | .cleared => (st, [])

/-- Feed a list of replies to the dialogue engine, collecting the
prompts it issues. -/
def runDialogue (st : DialogueState) : List String →
    DialogueState × List DialogueMsg
  | [] => (st, [])
  | t :: ts =>
    let r1 := dialogueTurn st t
    let r2 := runDialogue r1.1 ts
    (r2.1, r1.2 ++ r2.2)

/-- Whether a dialogue reply is a follow-up prompt. -/
def isFollowUp : DialogueMsg → Bool
  | .followUpPrompt _ _ => true
  | _ => false

/-! Concrete fixtures used by witness theorems. -/

/-- A content step, order 1, estimate 10 minutes. -/
def stepW1 : OnboardingStep :=
  ⟨11, "t1", "d1", 1, .content, 10, none, none, none, 3⟩

/-- A text-input step, order 2. -/
def stepW2 : OnboardingStep :=
  ⟨12, "t2", "d2", 2, .textInput, 10, none, none, none, 3⟩

/-- An evaluation step with evaluation configuration, order 3. -/
def stepW3 : OnboardingStep :=
  ⟨13, "t3", "d3", 3, .evaluation, 10, none, some "p", some "c", 3⟩

/-- A file-upload step, order 4. -/
def stepW4 : OnboardingStep :=
  ⟨14, "t4", "d4", 4, .fileUpload, 10, none, none, none, 3⟩

/-- A checked submission of user 1 on step 11. -/
def subW : Submission :=
  ⟨1, 11, none, some "x", none, "checked", some 0, 5, none, none, none⟩

/-- The submission persisted by the witness turn on the content step. -/
def subDoneW : Submission :=
  ⟨1, 11, none, some "Completed", none, "checked", none, 5, none, none,
   none⟩

/-- A session armed at the content step `stepW1` (no start timestamp, so
the witness turn skips the timing stage). -/
def dataW : SessionData := ⟨some 11, .content, none, none, 10⟩

/-- The acknowledgement reply. -/
def msgDoneW : TgMessage := ⟨some "Готово ✅", none⟩

/-- An internal user whose Telegram id differs from the primary key. -/
def userW : UserRec := ⟨1, 500⟩

/-- An empty validator. -/
def validatorW : ValidatorState := ⟨none, []⟩

/-- A session armed at the content step with a start timestamp at 0 and
a 10-minute estimate, for the timing witnesses. -/
def dataT : SessionData := ⟨some 11, .content, none, some 0, 10⟩

/-- Submission persisted when acknowledging after 2 minutes. -/
def subFastW : Submission :=
  ⟨1, 11, none, some "Completed", none, "checked", some 0, 2,
   some "too_fast", none, none⟩

/-- Submission persisted when acknowledging after 35 minutes. -/
def subSlowW : Submission :=
  ⟨1, 11, none, some "Completed", none, "checked", some 0, 35,
   some "too_slow", none, none⟩

/-- Submission persisted when acknowledging after 10 minutes. -/
def subOkW : Submission :=
  ⟨1, 11, none, some "Completed", none, "checked", some 0, 10,
   none, none, none⟩

/-- A session armed at the evaluation step `stepW3`, remembering a prior
free-text answer. -/
def dataE : SessionData := ⟨some 13, .evaluation, some "мой ответ", none, 10⟩

/-- The evaluation trigger reply. -/
def msgEvalW : TgMessage := ⟨some "Оценить результат", none⟩

/-- The submission persisted when the evaluator raises `boom`. -/
def subEvalW : Submission :=
  ⟨1, 13, none, some "мой ответ", some "LLM недоступен: boom", "checked",
   none, 5, none, none, some "LLM недоступен: boom"⟩

/-- A session armed at the file-upload step `stepW4`. -/
def dataF : SessionData := ⟨some 14, .fileUpload, none, none, 10⟩

/-- A reply carrying a Word document. -/
def msgDocW : TgMessage := ⟨none, some ⟨"report.docx"⟩⟩

/-- A reply carrying no document. -/
def msgNoDocW : TgMessage := ⟨some "вот", none⟩

/-- A frame missing the `Source`, `Contact` and `Status` columns. -/
def dfMissW : DataFrame := ⟨["Company", "Position"], []⟩

/-- A frame with all required columns and its single `Contact` cell
empty. -/
def dfContactW : DataFrame :=
  ⟨["Company", "Position", "Source", "Contact", "Status"],
   [[some "a", some "b", some "c", none, some "e"]]⟩

/-- Validator loaded with `dfMissW`. -/
def vMissW : ValidatorState := ⟨some dfMissW, []⟩

/-- Validator loaded with `dfContactW`. -/
def vContW : ValidatorState := ⟨some dfContactW, []⟩

/-- A submission keyed by the Telegram id 500 instead of the internal
user id 1. -/
def subTgW : Submission :=
  ⟨500, 13, none, some "plan text", none, "pending", none, 5, none, none,
   none⟩

/-- A passing LLM validation report. -/
def llmReportW : LlmReport := ⟨true, [], []⟩

/-! Helper lemmas. -/

/-- The timing stage only ever touches the `time_warning` field. -/
theorem applyTiming_eq (s : Submission) (e : Int) :
    ∃ w, (applyTiming s e).1 = { s with time_warning := w } := by
  unfold applyTiming
  split
  · dsimp only
    split
    · exact ⟨some "too_fast", rfl⟩
    · split
      · exact ⟨some "too_slow", rfl⟩
      · exact ⟨s.time_warning, rfl⟩
  · exact ⟨s.time_warning, rfl⟩

/-- A submission with an attempted status makes its step id a member of
the selected id list. -/
theorem mem_completed_of_attempted_status (u : Int) (subs : List Submission)
    (sub : Submission) (hu : sub.user_id = u)
    (hs : sub.status ∈ attemptedStatuses) :
    sub.step_id ∈ completed_step_ids u (sub :: subs) := by
  unfold completed_step_ids
  rw [List.filter_cons_of_pos]
  · exact List.mem_cons_self _ _
  · simp [hu, hs]

/-- After persisting a submission with an attempted status, the resolver
can never return that step again for that user. -/
theorem get_next_step_skips (u : Int) (subs : List Submission)
    (catalog : List OnboardingStep) (sub : Submission)
    (hu : sub.user_id = u) (hs : sub.status ∈ attemptedStatuses) :
    ∀ st, get_next_step u (sub :: subs) catalog = some st →
      st.id ≠ sub.step_id := by
  intro st h heq
  have hp := List.find?_some h
  rw [next_step_pred_iff] at hp
  apply hp
  unfold attempted
  rw [heq]
  exact mem_completed_of_attempted_status u subs sub hu hs

set_option maxHeartbeats 2000000

/-- Every submission persisted by `process_step_action` carries the
user's internal id, the armed step id, the session timing fields, the
`time_warning` of the timing stage, and a status that is `"checked"` or
`"pending"`. -/
theorem persisted_sub_shape (data : SessionData) (msg : TgMessage)
    (user : UserRec) (step : OnboardingStep) (now : ℚ)
    (llmResp : Except String String) (loadOk : Bool)
    (validator : ValidatorState) (llm_report : LlmReport) :
    ∀ sub, (process_step_action data msg user step now llmResp loadOk
        validator llm_report).submission = some sub →
      ∃ step_id, data.current_step_id = some step_id ∧
        sub.user_id = user.id ∧
        sub.step_id = step_id ∧
        sub.started_at = data.step_started_at ∧
        sub.created_at = now ∧
        sub.time_warning =
          (applyTiming (initialSub user step_id data.step_started_at now)
            data.estimated_duration).1.time_warning ∧
        (sub.status = "checked" ∨ sub.status = "pending") := by
  intro sub h
  unfold process_step_action at h
  split at h
  · simp at h
  · rename_i sid hcs
    obtain ⟨w, hw⟩ := applyTiming_eq
      (initialSub user sid data.step_started_at now) data.estimated_duration
    refine ⟨sid, hcs, ?_⟩
    dsimp only at h
    rw [hw] at h
    rw [hw]
    split at h
    repeat' split at h
    all_goals
      first
      | exact Option.noConfusion h
      | (simp only [Option.some.injEq] at h
         subst h
         first
         | exact ⟨rfl, rfl, rfl, rfl, rfl, Or.inl rfl⟩
         | exact ⟨rfl, rfl, rfl, rfl, rfl, Or.inr rfl⟩)

/-- The `time_warning` written by the timing stage, characterised for a
submission with a start time and a positive estimate. -/
theorem applyTiming_warning (s : Submission) (e : Int) (t : ℚ)
    (hs : s.started_at = some t) (hw0 : s.time_warning = none)
    (he : 0 < e) :
    ((applyTiming s e).1.time_warning = some "too_fast" ↔
      s.created_at - t < (e : ℚ) * (3/10)) ∧
    ((applyTiming s e).1.time_warning = some "too_slow" ↔
      (e : ℚ) * 3 < s.created_at - t) ∧
    ((applyTiming s e).1.time_warning = none ↔
      (¬(s.created_at - t < (e : ℚ) * (3/10)) ∧
       ¬((e : ℚ) * 3 < s.created_at - t))) := by
  have hep : (0 : ℚ) < (e : ℚ) := by exact_mod_cast he
  have hse : s.started_at.isSome = true := by rw [hs]; rfl
  have hd : decide (0 < e) = true := decide_eq_true he
  have hct : s.get_completion_time_minutes = s.created_at - t := by
    unfold Submission.get_completion_time_minutes
    rw [hs]
  unfold applyTiming
  rw [hse, hd, hct]
  simp only [Bool.and_self, if_true]
  split_ifs with h1 h2
  · refine ⟨by simp [h1], ?_, ?_⟩
    · constructor
      · intro hcon
        exact absurd (Option.some.inj hcon) (by decide)
      · intro hcon
        exact absurd hcon (by nlinarith)
    · constructor
      · intro hcon
        exact absurd hcon (by simp)
      · intro hcon
        exact absurd h1 hcon.1
  · refine ⟨?_, by simp [h2], ?_⟩
    · constructor
      · intro hcon
        exact absurd (Option.some.inj hcon) (by decide)
      · intro hcon
        exact absurd hcon h1
    · constructor
      · intro hcon
        exact absurd hcon (by simp)
      · intro hcon
        exact absurd h2 hcon.2
  · rw [hw0]
    refine ⟨by simp [h1], by simp [h2], by simp [h1, h2]⟩

/-- Whether `process_step_action` persists a submission does not depend
on the turn's clock: the timing check is advisory. -/
theorem submission_presence_independent_of_now (data : SessionData)
    (msg : TgMessage) (user : UserRec) (step : OnboardingStep)
    (now1 now2 : ℚ) (llmResp : Except String String) (loadOk : Bool)
    (validator : ValidatorState) (llm_report : LlmReport) :
    (process_step_action data msg user step now1 llmResp loadOk validator
      llm_report).submission.isSome =
    (process_step_action data msg user step now2 llmResp loadOk validator
      llm_report).submission.isSome := by
  unfold process_step_action
  cases data.current_step_id with
  | none => rfl
  | some sid =>
    dsimp only
    cases data.step_type <;>
      first
      | rfl
      | (split_ifs <;> rfl)
      | (cases msg.text <;> dsimp only <;> split_ifs <;> rfl)
      | (cases msg.document <;> dsimp only <;> split_ifs <;> rfl)

/-- C1: the Progression Resolver `next_step(user_id)` returns the first
catalog step in ascending order for which the user has no submission
with status in `{checked, approved, pending}`; it returns `None` exactly
when every catalog step has such a submission; and it is deterministic
and idempotent: two calls over the same submission store and catalog
yield the same result. -/
theorem c1_progression_resolver (u : Int) (subs : List Submission)
    (catalog : List OnboardingStep)
    (hsort : catalog.Pairwise (fun a b => a.order < b.order)) :
    (∀ s, get_next_step u subs catalog = some s ↔
      (s ∈ catalog ∧ ¬ attempted u subs s.id ∧
        ∀ t ∈ catalog, t.order < s.order → attempted u subs t.id)) ∧
    (get_next_step u subs catalog = none ↔
      ∀ t ∈ catalog, attempted u subs t.id) ∧
    (∀ subs2 catalog2, subs2 = subs → catalog2 = catalog →
      get_next_step u subs2 catalog2 = get_next_step u subs catalog) := by
  obtain ⟨hsome, hnone⟩ :=
    find_first_by_key (fun st : OnboardingStep => st.order)
      (fun st => !decide (st.id ∈ completed_step_ids u subs)) catalog hsort
  refine ⟨?_, ?_, ?_⟩
  · intro s
    show catalog.find? _ = some s ↔ _
    rw [hsome s]
    constructor
    · rintro ⟨hm, hp, hf⟩
      exact ⟨hm, (next_step_pred_iff u subs s).mp hp,
        fun t ht hlt => (next_step_pred_false_iff u subs t).mp (hf t ht hlt)⟩
    · rintro ⟨hm, hp, hf⟩
      exact ⟨hm, (next_step_pred_iff u subs s).mpr hp,
        fun t ht hlt => (next_step_pred_false_iff u subs t).mpr (hf t ht hlt)⟩
  · show catalog.find? _ = none ↔ _
    rw [hnone]
    constructor
    · intro h t ht
      exact (next_step_pred_false_iff u subs t).mp (h t ht)
    · intro h t ht
      exact (next_step_pred_false_iff u subs t).mpr (h t ht)
  · rintro subs2 catalog2 rfl rfl
    rfl

/-- Witness for C1 at a two-step catalog with one checked submission:
the resolver returns the second step. -/
theorem c1_progression_resolver_witness :
    ([stepW1, stepW2].Pairwise
      (fun a b : OnboardingStep => a.order < b.order)) ∧
    get_next_step 1 [subW] [stepW1, stepW2] = some stepW2 := by
  refine ⟨by decide, ?_⟩
  exact ((c1_progression_resolver 1 [subW] [stepW1, stepW2] (by decide)).1
    stepW2).mpr ⟨by decide, by decide, by decide⟩

/-- C2: every submission persisted by the step response processor has
status `"checked"` or `"pending"`, both in the resolver's attempted set,
so after any accepted reply the Progression Resolver never returns that
step again for that user. -/
theorem c2_persisted_attempt_advances (data : SessionData)
    (msg : TgMessage) (user : UserRec) (step : OnboardingStep) (now : ℚ)
    (llmResp : Except String String) (loadOk : Bool)
    (validator : ValidatorState) (llm_report : LlmReport)
    (sub : Submission)
    (h : (process_step_action data msg user step now llmResp loadOk
      validator llm_report).submission = some sub) :
    (sub.status = "checked" ∨ sub.status = "pending") ∧
    sub.status ∈ attemptedStatuses ∧
    ∀ subs catalog st,
      get_next_step sub.user_id (sub :: subs) catalog = some st →
        st.id ≠ sub.step_id := by
  obtain ⟨sid, _, _, _, _, _, _, hstat⟩ :=
    persisted_sub_shape data msg user step now llmResp loadOk validator
      llm_report sub h
  have hmem : sub.status ∈ attemptedStatuses := by
    rcases hstat with h1 | h1 <;> rw [h1] <;> decide
  refine ⟨hstat, hmem, ?_⟩
  intro subs catalog st hn
  exact get_next_step_skips sub.user_id subs catalog sub rfl hmem st hn

/-- Witness for C2: the acknowledged content step persists a checked
submission and the resolver then moves to the next step. -/
theorem c2_persisted_attempt_advances_witness :
    (process_step_action dataW msgDoneW userW stepW1 5 (.ok "") true
      validatorW llmReportW).submission = some subDoneW ∧
    subDoneW.status ∈ attemptedStatuses ∧
    get_next_step subDoneW.user_id [subDoneW] [stepW1, stepW2] =
      some stepW2 ∧
    stepW2.id ≠ subDoneW.step_id := by
  have h : (process_step_action dataW msgDoneW userW stepW1 5 (.ok "") true
      validatorW llmReportW).submission = some subDoneW := by decide
  have hns : get_next_step subDoneW.user_id [subDoneW] [stepW1, stepW2] =
      some stepW2 := by decide
  exact ⟨h,
    (c2_persisted_attempt_advances dataW msgDoneW userW stepW1 5 (.ok "")
      true validatorW llmReportW subDoneW h).2.1, hns,
    (c2_persisted_attempt_advances dataW msgDoneW userW stepW1 5 (.ok "")
      true validatorW llmReportW subDoneW h).2.2 [] [stepW1, stepW2]
      stepW2 hns⟩

/-- C3: for every step processed with a start timestamp and a positive
estimate, the persisted submission carries `time_warning = "too_fast"`
iff elapsed < 0.3 × estimate, `"too_slow"` iff elapsed > 3 × estimate,
and no warning otherwise; and whether a submission is persisted at all
never depends on the elapsed time. -/
theorem c3_timing_thresholds (data : SessionData) (msg : TgMessage)
    (user : UserRec) (step : OnboardingStep) (now : ℚ)
    (llmResp : Except String String) (loadOk : Bool)
    (validator : ValidatorState) (llm_report : LlmReport) (t : ℚ)
    (hst : data.step_started_at = some t)
    (hest : 0 < data.estimated_duration) :
    (∀ sub, (process_step_action data msg user step now llmResp loadOk
        validator llm_report).submission = some sub →
      ((sub.time_warning = some "too_fast" ↔
         now - t < (data.estimated_duration : ℚ) * (3/10)) ∧
       (sub.time_warning = some "too_slow" ↔
         (data.estimated_duration : ℚ) * 3 < now - t) ∧
       (sub.time_warning = none ↔
         (¬(now - t < (data.estimated_duration : ℚ) * (3/10)) ∧
          ¬((data.estimated_duration : ℚ) * 3 < now - t))))) ∧
    (∀ now2, (process_step_action data msg user step now2 llmResp loadOk
        validator llm_report).submission.isSome =
      (process_step_action data msg user step now llmResp loadOk
        validator llm_report).submission.isSome) := by
  constructor
  · intro sub h
    obtain ⟨sid, _, _, _, _, _, htw, _⟩ :=
      persisted_sub_shape data msg user step now llmResp loadOk validator
        llm_report sub h
    rw [htw]
    have hs0 : (initialSub user sid data.step_started_at now).started_at =
        some t := hst
    have hw0 : (initialSub user sid data.step_started_at now).time_warning =
        none := rfl
    exact applyTiming_warning
      (initialSub user sid data.step_started_at now)
      data.estimated_duration t hs0 hw0 hest
  · intro now2
    exact submission_presence_independent_of_now data msg user step now2
      now llmResp loadOk validator llm_report

/-- Witness for C3 at estimate 10: elapsed 2 gives `too_fast`, elapsed
35 gives `too_slow`, elapsed 10 gives no warning. -/
theorem c3_timing_thresholds_witness :
    ((process_step_action dataT msgDoneW userW stepW1 2 (.ok "") true
       validatorW llmReportW).submission = some subFastW ∧
      subFastW.time_warning = some "too_fast") ∧
    ((process_step_action dataT msgDoneW userW stepW1 35 (.ok "") true
       validatorW llmReportW).submission = some subSlowW ∧
      subSlowW.time_warning = some "too_slow") ∧
    ((process_step_action dataT msgDoneW userW stepW1 10 (.ok "") true
       validatorW llmReportW).submission = some subOkW ∧
      subOkW.time_warning = none) := by
  have h2 : (process_step_action dataT msgDoneW userW stepW1 2 (.ok "")
      true validatorW llmReportW).submission = some subFastW := by
    simp only [process_step_action, dataT, msgDoneW, userW, stepW1,
      applyTiming, initialSub, Submission.get_completion_time_minutes,
      subFastW]
    norm_num
  have h35 : (process_step_action dataT msgDoneW userW stepW1 35 (.ok "")
      true validatorW llmReportW).submission = some subSlowW := by
    simp only [process_step_action, dataT, msgDoneW, userW, stepW1,
      applyTiming, initialSub, Submission.get_completion_time_minutes,
      subSlowW]
    norm_num
  have h10 : (process_step_action dataT msgDoneW userW stepW1 10 (.ok "")
      true validatorW llmReportW).submission = some subOkW := by
    simp only [process_step_action, dataT, msgDoneW, userW, stepW1,
      applyTiming, initialSub, Submission.get_completion_time_minutes,
      subOkW]
    norm_num
  refine ⟨⟨h2, ?_⟩, ⟨h35, ?_⟩, ⟨h10, ?_⟩⟩
  · exact ((c3_timing_thresholds dataT msgDoneW userW stepW1 2 (.ok "")
      true validatorW llmReportW 0 rfl (by decide)).1 subFastW h2).1.mpr
      (by norm_num [dataT])
  · exact ((c3_timing_thresholds dataT msgDoneW userW stepW1 35 (.ok "")
      true validatorW llmReportW 0 rfl (by decide)).1 subSlowW h35).2.1.mpr
      (by norm_num [dataT])
  · exact ((c3_timing_thresholds dataT msgDoneW userW stepW1 10 (.ok "")
      true validatorW llmReportW 0 rfl (by decide)).1 subOkW h10).2.2.mpr
      (by constructor <;> norm_num [dataT])

/-- A score extracted by the `[1-5]` regex is between 1 and 5. -/
theorem digit_map_bounds (s : String) (q : ℚ)
    (h : (firstDigit15 s).map digitVal = some q) : 1 ≤ q ∧ q ≤ 5 := by
  rw [Option.map_eq_some'] at h
  obtain ⟨c, hc, hq⟩ := h
  have hmem : c ∈ digitChars15 := by
    have := List.find?_some hc
    simpa using this
  subst hq
  unfold digitVal
  fin_cases hmem <;> simp <;> norm_num

/-- C4 counterexample: on a step with evaluation criteria configured,
the text_parse evaluator returns a raw LLM score of 42 unchanged — it is
neither null nor within `[1, 5]`. -/
theorem c4_counterexample_unclamped_score :
    (evaluate_submission stepW3 (.obj (some 42) (some "fb"))).score = 42 ∧
    ¬((1 : ℚ) ≤
        (evaluate_submission stepW3 (.obj (some 42) (some "fb"))).score ∧
      (evaluate_submission stepW3 (.obj (some 42) (some "fb"))).score ≤ 5) := by
  have hs : (evaluate_submission stepW3 (.obj (some 42) (some "fb"))).score
      = 42 := rfl
  refine ⟨hs, ?_⟩
  rw [hs]
  intro hcon
  have := hcon.2
  norm_num at this

/-- C4 (amended): the Evaluation-step scorer produces a score in `[1,5]`
or null, and the report re-scoring pass clamps to `[1,10]`; the
text_parse evaluation path, however, does not clamp: with evaluation
criteria configured it returns the parsed LLM score unchanged, and its
only bounded outputs are the defaults `5.0` (no criteria) and `3.0`
(JSON decode failure or missing score key). -/
theorem c4_amended_score_bounds :
    (∀ pa d resp q, (evaluate_answer pa d resp).score = some q →
      1 ≤ q ∧ q ≤ 5) ∧
    (∀ x, 1 ≤ extract_score x ∧ extract_score x ≤ 10) ∧
    (∀ st resp,
      (pyFalsy st.evaluation_prompt || pyFalsy st.evaluation_criteria)
        = true → (evaluate_submission st resp).score = 5) ∧
    (∀ st raw,
      (pyFalsy st.evaluation_prompt || pyFalsy st.evaluation_criteria)
        = false →
      (evaluate_submission st (.decodeError raw)).score = 3) ∧
    (∀ st q fb,
      (pyFalsy st.evaluation_prompt || pyFalsy st.evaluation_criteria)
        = false →
      (evaluate_submission st (.obj (some q) fb)).score = q) := by
  refine ⟨?_, ?_, ?_, ?_, ?_⟩
  · intro pa d resp q h
    unfold evaluate_answer at h
    by_cases hfa : pa = none ∨ pa = some ""
    · rw [if_pos hfa] at h
      exact absurd h (by simp)
    · rw [if_neg hfa] at h
      dsimp only at h
      cases resp with
      | ok r =>
        by_cases hfb : r = ""
        · rw [if_pos hfb] at h
          exact absurd h (by simp)
        · rw [if_neg hfb] at h
          exact digit_map_bounds r q h
      | error e =>
        by_cases hfb : ("LLM недоступен: " ++ e) = ""
        · rw [if_pos hfb] at h
          exact absurd h (by simp)
        · rw [if_neg hfb] at h
          exact digit_map_bounds _ q h
  · intro x
    match x with
    | none =>
      unfold extract_score
      norm_num
    | some s =>
      unfold extract_score
      constructor
      · exact le_max_left 1 _
      · exact max_le (by norm_num) (min_le_left 10 s)
  · intro st resp h
    unfold evaluate_submission
    rw [h]
    rfl
  · intro st raw h
    unfold evaluate_submission
    rw [h]
    rfl
  · intro st q fb h
    unfold evaluate_submission
    rw [h]
    rfl

/-- Witness for C4 (amended): a concrete in-range live score, the
clamped report score for a raw 42, and the unclamped text_parse
pass-through of 42. -/
theorem c4_amended_score_bounds_witness :
    (evaluate_answer (some "ans") "d" (.ok "4")).score = some 4 ∧
    ((1 : ℚ) ≤ 4 ∧ (4 : ℚ) ≤ 5) ∧
    ((1 : ℚ) ≤ extract_score (some 42) ∧ extract_score (some 42) ≤ 10) ∧
    (pyFalsy stepW3.evaluation_prompt ||
      pyFalsy stepW3.evaluation_criteria) = false ∧
    (evaluate_submission stepW3 (.obj (some 42) (some "fb"))).score = 42 := by
  have h4 : (evaluate_answer (some "ans") "d" (.ok "4")).score = some 4 := rfl
  exact ⟨h4,
    c4_amended_score_bounds.1 (some "ans") "d" (.ok "4") 4 h4,
    c4_amended_score_bounds.2.1 (some 42),
    rfl,
    c4_amended_score_bounds.2.2.2.2 stepW3 42 (some "fb") rfl⟩

/-- C6: the text_parse collection path can never complete a turn: the
`OnboardingSubmission(...)` call passes a `structured_data` keyword that
is not an attribute of the model, so the declarative constructor raises
`TypeError` inside the `try` block; the handler replies with an error,
nothing is committed, and the session state is not cleared. -/
theorem c6_text_parse_turn_always_fails (step : OnboardingStep)
    (tg : Int) (txt js : String) (resp : LLMJson) :
    (process_text_parse step tg txt js resp).persisted = [] ∧
    (process_text_parse step tg txt js resp).error_message =
      some "Ошибка при обработке" ∧
    (process_text_parse step tg txt js resp).state_cleared = false := by
  have hinit : declarativeInit (textParseKwargs tg step.id txt js) =
      .error "invalid keyword argument" := rfl
  unfold process_text_parse
  dsimp only
  rw [hinit]
  exact ⟨rfl, rfl, rfl⟩

/-- C8: a loaded spreadsheet missing a required column fails
`validate_structure` with a non-empty errors list, and one whose
`Contact` column is more than half empty fails `validate_content`. -/
theorem c8_search_map_validation_gate (v : ValidatorState)
    (df : DataFrame) (hdf : v.df = some df) :
    ((∃ c ∈ REQUIRED_COLUMNS, c ∉ df.columns) →
      ((validate_structure v).1 = false ∧
       (validate_structure v).2.errors ≠ [])) ∧
    (("Contact" ∈ df.columns ∧
        df.rows.length < 2 * isnaCount df "Contact") →
      (validate_content v).valid = false) := by
  constructor
  · rintro ⟨c, hcr, hcn⟩
    have hcmem : c ∈ missing_cols df := by
      unfold missing_cols
      rw [List.mem_filter]
      refine ⟨hcr, ?_⟩
      simp [hcn]
    have hne : missing_cols df ≠ [] := by
      intro hnil
      rw [hnil] at hcmem
      exact List.not_mem_nil c hcmem
    have hemp : (missing_cols df).isEmpty = false := by
      rw [List.isEmpty_eq_false]
      exact hne
    unfold validate_structure
    rw [hdf]
    dsimp only
    rw [hemp]
    exact ⟨rfl, by simp⟩
  · rintro ⟨hmem, hcount⟩
    have hcont : df.columns.contains "Contact" = true := by
      simpa using hmem
    have hlt : ((df.rows.length : ℚ) * (1/2)) < (isnaCount df "Contact" : ℚ) := by
      have h2 : ((df.rows.length : ℚ)) < ((2 * isnaCount df "Contact" : ℕ) : ℚ) := by
        exact_mod_cast hcount
      push_cast at h2
      linarith
    unfold validate_content
    rw [hdf]
    dsimp only
    rw [hcont]
    rw [if_pos (by exact hlt)]

/-- Witness for C8: a frame without `Source` fails the structure check
with errors, and a frame whose single `Contact` cell is empty fails the
content check. -/
theorem c8_search_map_validation_gate_witness :
    (validate_structure vMissW).1 = false ∧
    (validate_structure vMissW).2.errors ≠ [] ∧
    (validate_content vContW).valid = false := by
  have h1 := (c8_search_map_validation_gate vMissW dfMissW rfl).1
    ⟨"Source", by decide, by decide⟩
  have h2 := (c8_search_map_validation_gate vContW dfContactW rfl).2
    ⟨by decide, by decide⟩
  exact ⟨h1.1, h1.2, h2⟩

/-- C10: the text_parse constructor call keys the submission by the
Telegram account id, while the resolver counts only submissions whose
`user_id` equals the internal id: a submission stored under a different
id never changes `get_next_step`, so the same step is returned again. -/
theorem c10_text_parse_user_id_mismatch (tg sid : Int) (txt js : String) :
    (textParseKwargs tg sid txt js).lookup "user_id" = some (.int tg) ∧
    (∀ (uid : Int) (sub : Submission) (subs : List Submission)
        (catalog : List OnboardingStep),
      sub.user_id = tg → uid ≠ tg →
      get_next_step uid (sub :: subs) catalog =
        get_next_step uid subs catalog) := by
  constructor
  · rfl
  · intro uid sub subs catalog hu hne
    have hbeq : (sub.user_id == uid) = false := by
      rw [hu]
      exact beq_eq_false_iff_ne.mpr (Ne.symm hne)
    have hfilter : completed_step_ids uid (sub :: subs) =
        completed_step_ids uid subs := by
      unfold completed_step_ids
      rw [List.filter_cons_of_neg]
      simp [hbeq]
    unfold get_next_step
    rw [hfilter]

/-- Witness for C10: user with internal id 1 and Telegram id 500; a
pending submission stored under 500 leaves the resolver's answer for
user 1 unchanged, still the same step. -/
theorem c10_text_parse_user_id_mismatch_witness :
    (textParseKwargs 500 13 "plan text" "js").lookup "user_id" =
      some (.int 500) ∧
    (1 : Int) ≠ 500 ∧
    get_next_step 1 [subTgW] [stepW3] = get_next_step 1 [] [stepW3] ∧
    get_next_step 1 [subTgW] [stepW3] = some stepW3 := by
  have h := c10_text_parse_user_id_mismatch 500 13 "plan text" "js"
  exact ⟨h.1, by decide,
    h.2 1 subTgW [] [stepW3] rfl (by decide), by decide⟩

/-- C7: on a FileUpload step, a reply with no document, or whose
document name does not end in `.xlsx`/`.xls`, is rejected before the
validator is ever constructed: no submission is persisted, the session
data is unchanged, and the trainee is re-prompted for an Excel file. -/
theorem c7_file_upload_rejected_before_validation (data : SessionData)
    (msg : TgMessage) (user : UserRec) (step : OnboardingStep) (now : ℚ)
    (llmResp : Except String String) (loadOk : Bool)
    (validator : ValidatorState) (llm_report : LlmReport) (sid : Int)
    (hid : data.current_step_id = some sid)
    (hty : data.step_type = .fileUpload)
    (hbad : msg.document = none ∨ ∃ doc, msg.document = some doc ∧
      (strEndsWith doc.file_name ".xlsx" ||
        strEndsWith doc.file_name ".xls") = false) :
    (process_step_action data msg user step now llmResp loadOk validator
      llm_report).submission = none ∧
    (process_step_action data msg user step now llmResp loadOk validator
      llm_report).data = data ∧
    (process_step_action data msg user step now llmResp loadOk validator
      llm_report).validator_invoked = false ∧
    (BotMsg.uploadExcelFile ∈ (process_step_action data msg user step now
        llmResp loadOk validator llm_report).messages ∨
     BotMsg.needExcelExtension ∈ (process_step_action data msg user step
        now llmResp loadOk validator llm_report).messages) := by
  rcases hbad with hdoc | ⟨doc, hdoc, hext⟩
  · simp [process_step_action, hid, hty, hdoc]
  · simp [process_step_action, hid, hty, hdoc, hext]

/-- Witness for C7: a `.docx` upload on the armed file step is turned
away with the validator untouched. -/
theorem c7_file_upload_rejected_before_validation_witness :
    (process_step_action dataF msgDocW userW stepW4 5 (.ok "") true
      validatorW llmReportW).submission = none ∧
    (process_step_action dataF msgDocW userW stepW4 5 (.ok "") true
      validatorW llmReportW).data = dataF ∧
    (process_step_action dataF msgDocW userW stepW4 5 (.ok "") true
      validatorW llmReportW).validator_invoked = false ∧
    (BotMsg.uploadExcelFile ∈ (process_step_action dataF msgDocW userW
        stepW4 5 (.ok "") true validatorW llmReportW).messages ∨
     BotMsg.needExcelExtension ∈ (process_step_action dataF msgDocW userW
        stepW4 5 (.ok "") true validatorW llmReportW).messages) :=
  c7_file_upload_rejected_before_validation dataF msgDocW userW stepW4 5
    (.ok "") true validatorW llmReportW 14 rfl rfl
    (Or.inr ⟨⟨"report.docx"⟩, rfl, by decide⟩)

/-- The fallback comment produced when the LLM call raises inside
`evaluate_answer` and a previous answer exists. -/
theorem evaluate_answer_error_comment (pa : Option String) (d e : String)
    (h : ¬(pa = none ∨ pa = some "")) :
    (evaluate_answer pa d (.error e)).comment = "LLM недоступен: " ++ e := by
  unfold evaluate_answer
  rw [if_neg h]

/-- C9: when the evaluator raises during an Evaluation step, the turn
still persists a submission with status `"checked"` (never null), its
evaluation notes carry the fallback message naming the failure, and the
resolver can no longer return that step for that user. -/
theorem c9_evaluator_failure_graceful (data : SessionData)
    (msg : TgMessage) (user : UserRec) (step : OnboardingStep) (now : ℚ)
    (loadOk : Bool) (validator : ValidatorState) (llm_report : LlmReport)
    (e : String) (sid : Int) (la : String)
    (hid : data.current_step_id = some sid)
    (hty : data.step_type = .evaluation)
    (hskip : isSkipText msg.text = false)
    (hla : data.last_text_answer = some la) (hlane : la ≠ "") :
    ∃ sub, (process_step_action data msg user step now (.error e) loadOk
        validator llm_report).submission = some sub ∧
      sub.status = "checked" ∧
      sub.evaluation_notes = some ("LLM недоступен: " ++ e) ∧
      sub.user_id = user.id ∧
      sub.step_id = sid ∧
      (∀ subs catalog st,
        get_next_step user.id (sub :: subs) catalog = some st →
          st.id ≠ sid) := by
  obtain ⟨w, hw⟩ := applyTiming_eq
    (initialSub user sid data.step_started_at now) data.estimated_duration
  have hfal : ¬(data.last_text_answer = none ∨
      data.last_text_answer = some "") := by
    rw [hla]
    simp [hlane]
  simp only [process_step_action, hid, hty, hskip, Bool.false_eq_true,
    if_false]
  rw [hw]
  refine ⟨_, rfl, rfl, ?_, rfl, rfl, ?_⟩
  · rw [evaluate_answer_error_comment data.last_text_answer
      step.description e hfal]
  · intro subs catalog st hn
    refine get_next_step_skips user.id subs catalog _ rfl ?_ st hn
    exact List.mem_cons_self "checked" _

/-- Witness for C9: a non-skip trigger on the armed evaluation step with
the evaluator raising `boom`. -/
theorem c9_evaluator_failure_graceful_witness :
    isSkipText msgEvalW.text = false ∧
    (process_step_action dataE msgEvalW userW stepW3 5 (.error "boom")
      true validatorW llmReportW).submission = some subEvalW ∧
    subEvalW.status = "checked" ∧
    subEvalW.evaluation_notes = some "LLM недоступен: boom" ∧
    get_next_step userW.id [subEvalW] [stepW3, stepW4] = some stepW4 ∧
    stepW4.id ≠ 13 := by
  obtain ⟨sub, hsub, _, _, _, _, hprog⟩ :=
    c9_evaluator_failure_graceful dataE msgEvalW userW stepW3 5 true
      validatorW llmReportW "boom" 13 "мой ответ" rfl rfl (by decide) rfl
      (by decide)
  have h : (process_step_action dataE msgEvalW userW stepW3 5
      (.error "boom") true validatorW llmReportW).submission =
      some subEvalW := by decide
  rw [hsub] at h
  have hse : sub = subEvalW := Option.some.inj h
  subst hse
  exact ⟨by decide, hsub, by decide, by decide, by decide,
    hprog [] [stepW3, stepW4] stepW4 (by decide)⟩

/-- `_move_to_next_section` keeps the collected sections it is handed
and never issues a follow-up prompt. -/
theorem move_to_next_section_shape (st : DialogueState) (ni : ℕ)
    (c : List (String × SectionValue)) :
    ((move_to_next_section st ni c).1.collected_sections = c) ∧
    (∀ m ∈ (move_to_next_section st ni c).2, isFollowUp m = false) := by
  unfold move_to_next_section
  cases h : st.sections.get? ni <;> simp [isFollowUp]

/-- C5: in sequential_dialogue collection, a section declaring two
follow-ups whose first reply tokenizes to two items issues exactly four
follow-up prompts before the section completes — items in reply order
(outer cursor), follow-ups in configuration order (inner cursor) — and
each follow-up answer is stored on the corresponding item keyed by the
follow-up name. -/
theorem c5_sequential_dialogue_cursors
    (secName secPrompt f1 f2 : String) (rest : List DialogueSection)
    (r i1 i2 a1 a2 b1 b2 : String)
    (hf : f1 ≠ f2) (htok : tokenizeItems r = [i1, i2]) :
    handle_sequential_dialogue (⟨secName, secPrompt, [f1, f2]⟩ :: rest) =
      some (⟨⟨secName, secPrompt, [f1, f2]⟩ :: rest, 0, [], [], 0, 0,
        .collecting_data⟩, [.sectionPrompt secPrompt]) ∧
    (runDialogue ⟨⟨secName, secPrompt, [f1, f2]⟩ :: rest, 0, [], [], 0, 0,
        .collecting_data⟩ [r, a1, a2, b1, b2]).2.filter isFollowUp =
      [.followUpPrompt i1 f1, .followUpPrompt i1 f2,
       .followUpPrompt i2 f1, .followUpPrompt i2 f2] ∧
    (runDialogue ⟨⟨secName, secPrompt, [f1, f2]⟩ :: rest, 0, [], [], 0, 0,
        .collecting_data⟩ [r, a1, a2, b1, b2]).1.collected_sections =
      [(secName, .detailed
        [⟨i1, [(f1, a1), (f2, a2)]⟩, ⟨i2, [(f1, b1), (f2, b2)]⟩])] := by
  have hbe : (f1 == f2) = false := beq_eq_false_iff_ne.mpr hf
  have e1 : dialogueTurn ⟨⟨secName, secPrompt, [f1, f2]⟩ :: rest, 0, [],
      [], 0, 0, .collecting_data⟩ r =
      (⟨⟨secName, secPrompt, [f1, f2]⟩ :: rest, 0, [⟨i1, []⟩, ⟨i2, []⟩],
        [], 0, 0, .awaiting_follow_up⟩, [.followUpPrompt i1 f1]) := by
    simp [dialogueTurn, process_sequential_dialogue, htok]
  have e2 : dialogueTurn ⟨⟨secName, secPrompt, [f1, f2]⟩ :: rest, 0,
      [⟨i1, []⟩, ⟨i2, []⟩], [], 0, 0, .awaiting_follow_up⟩ a1 =
      (⟨⟨secName, secPrompt, [f1, f2]⟩ :: rest, 0,
        [⟨i1, [(f1, a1)]⟩, ⟨i2, []⟩], [], 0, 1, .awaiting_follow_up⟩,
       [.followUpPrompt i1 f2]) := by
    simp [dialogueTurn, process_follow_up, setItemField, assocSet]
  have e3 : dialogueTurn ⟨⟨secName, secPrompt, [f1, f2]⟩ :: rest, 0,
      [⟨i1, [(f1, a1)]⟩, ⟨i2, []⟩], [], 0, 1, .awaiting_follow_up⟩ a2 =
      (⟨⟨secName, secPrompt, [f1, f2]⟩ :: rest, 0,
        [⟨i1, [(f1, a1), (f2, a2)]⟩, ⟨i2, []⟩], [], 1, 0,
        .awaiting_follow_up⟩,
       [.followUpPrompt i2 f1]) := by
    simp [dialogueTurn, process_follow_up, setItemField, assocSet, hbe]
  have e4 : dialogueTurn ⟨⟨secName, secPrompt, [f1, f2]⟩ :: rest, 0,
      [⟨i1, [(f1, a1), (f2, a2)]⟩, ⟨i2, []⟩], [], 1, 0,
      .awaiting_follow_up⟩ b1 =
      (⟨⟨secName, secPrompt, [f1, f2]⟩ :: rest, 0,
        [⟨i1, [(f1, a1), (f2, a2)]⟩, ⟨i2, [(f1, b1)]⟩], [], 1, 1,
        .awaiting_follow_up⟩,
       [.followUpPrompt i2 f2]) := by
    simp [dialogueTurn, process_follow_up, setItemField, assocSet]
  have e5 : dialogueTurn ⟨⟨secName, secPrompt, [f1, f2]⟩ :: rest, 0,
      [⟨i1, [(f1, a1), (f2, a2)]⟩, ⟨i2, [(f1, b1)]⟩], [], 1, 1,
      .awaiting_follow_up⟩ b2 =
      move_to_next_section ⟨⟨secName, secPrompt, [f1, f2]⟩ :: rest, 0,
        [⟨i1, [(f1, a1), (f2, a2)]⟩, ⟨i2, [(f1, b1), (f2, b2)]⟩], [], 1, 1,
        .awaiting_follow_up⟩ 1
        [(secName, .detailed
          [⟨i1, [(f1, a1), (f2, a2)]⟩, ⟨i2, [(f1, b1), (f2, b2)]⟩])] := by
    simp [dialogueTurn, process_follow_up, setItemField, assocSet, hbe,
      move_to_next_section]
  obtain ⟨e5c, e5f⟩ := move_to_next_section_shape
    ⟨⟨secName, secPrompt, [f1, f2]⟩ :: rest, 0,
      [⟨i1, [(f1, a1), (f2, a2)]⟩, ⟨i2, [(f1, b1), (f2, b2)]⟩], [], 1, 1,
      .awaiting_follow_up⟩ 1
    [(secName, .detailed
      [⟨i1, [(f1, a1), (f2, a2)]⟩, ⟨i2, [(f1, b1), (f2, b2)]⟩])]
  have e5fn : ((move_to_next_section ⟨⟨secName, secPrompt, [f1, f2]⟩ ::
      rest, 0, [⟨i1, [(f1, a1), (f2, a2)]⟩, ⟨i2, [(f1, b1), (f2, b2)]⟩],
      [], 1, 1, .awaiting_follow_up⟩ 1
      [(secName, .detailed [⟨i1, [(f1, a1), (f2, a2)]⟩,
        ⟨i2, [(f1, b1), (f2, b2)]⟩])]).2).filter isFollowUp = [] := by
    rw [List.filter_eq_nil_iff]
    intro m hm
    simp [e5f m hm]
  refine ⟨rfl, ?_, ?_⟩
  · simp only [runDialogue, e1, e2, e3, e4, e5]
    simp only [List.filter_append, List.append_nil, e5fn]
    simp [isFollowUp]
  · simp only [runDialogue, e1, e2, e3, e4, e5]
    simpa using e5c

/-- Witness for C5: the soft_skills section of E2E scenario B, replies
`"Communication, Teamwork"` then four follow-up answers. -/
theorem c5_sequential_dialogue_cursors_witness :
    tokenizeItems "Communication, Teamwork" =
      ["Communication", "Teamwork"] ∧
    ("indicators" : String) ≠ "question" ∧
    (runDialogue ⟨⟨"soft_skills", "Назови ключевые навыки",
        ["indicators", "question"]⟩ :: [⟨"hard_skills", "prompt2", []⟩],
        0, [], [], 0, 0, .collecting_data⟩
      ["Communication, Teamwork", "ans1", "ans2", "ans3",
        "ans4"]).2.filter isFollowUp =
      [.followUpPrompt "Communication" "indicators",
       .followUpPrompt "Communication" "question",
       .followUpPrompt "Teamwork" "indicators",
       .followUpPrompt "Teamwork" "question"] ∧
    (runDialogue ⟨⟨"soft_skills", "Назови ключевые навыки",
        ["indicators", "question"]⟩ :: [⟨"hard_skills", "prompt2", []⟩],
        0, [], [], 0, 0, .collecting_data⟩
      ["Communication, Teamwork", "ans1", "ans2", "ans3",
        "ans4"]).1.collected_sections =
      [("soft_skills", .detailed
        [⟨"Communication", [("indicators", "ans1"), ("question", "ans2")]⟩,
         ⟨"Teamwork", [("indicators", "ans3"), ("question", "ans4")]⟩])] := by
  have h := c5_sequential_dialogue_cursors "soft_skills"
    "Назови ключевые навыки" "indicators" "question"
    [⟨"hard_skills", "prompt2", []⟩] "Communication, Teamwork"
    "Communication" "Teamwork" "ans1" "ans2" "ans3" "ans4"
    (by decide) (by decide)
  exact ⟨by decide, by decide, h.2.1, h.2.2⟩

end HrTraine
